import Mathlib

/-!
Shallow embedding of the `OmnichannelTranscript` service
(`src/ee/apps/omnichannel-transcript/src/OmnichannelTranscript.ts`) of the
Rocket.Chat-style repository, together with proofs of the testable
properties the specification states about it.

Modelling conventions:
* the asynchronous TypeScript methods become pure Lean functions that take
  the mutable world (the document store, the work queue, the job counter,
  the log of delivered messages) as an explicit `SysState` and return the
  new state together with an `Except String Unit` result — `.error e`
  models `throw new Error(e)`, `.ok ()` models normal return;
* external collaborators (PDF worker, upload service, messaging service,
  translation and settings services, the message collection) are an
  explicit read-only oracle record `ExternalEnv`; a fallible service call
  is a field returning `Except`/`Option`;
* JavaScript truthiness on strings (`s ||`) is `jsOrStr`; a `string |
  undefined` field is `Option String` and its truthiness is `truthy`.
-/

/-- A livechat room as the workflow reads and writes it.  The TS field
`open` is renamed `isOpen` because `open` is a Lean keyword; `servedBy`
and `v` keep only the `_id` of the referenced agent/visitor, the single
field the workflow dereferences. -/
structure Room where
  _id : String
  isOpen : Bool
  servedBy : Option String
  v : Option String
  pdfTranscriptRequested : Bool
  pdfTranscriptFileId : Option String
  closedAt : Option Nat
deriving DecidableEq, Repr

/-- The `{_id, name}` projection of an entry of `message.files`
(`OmnichannelTranscript.ts` line 146). -/
structure FileRef where
  _id : String
  name : Option String
deriving DecidableEq, Repr

/-- A message attachment, restricted to the fields `getFiles` reads.
All fields are optional in the TS types, hence `Option String`. -/
structure Attachment where
  type : Option String
  image_type : Option String
  title : Option String
  title_link : Option String
  description : Option String
deriving DecidableEq, Repr

/-- A stored chat message as projected by `getMessagesFromRoom`
(fields `_id, msg, u, ts, attachments, files, md`).  `msg` is a plain
`String` because `IMessage.msg` is a required string field; an absent
`attachments` array and an empty one behave identically in the code
(`!message.attachments || !message.attachments.length`), so both are the
empty list. -/
structure Msg where
  _id : String
  ts : Nat
  u : String
  msg : String
  md : Option String
  attachments : List Attachment
  files : List FileRef
deriving DecidableEq, Repr

/-- Opaque binary content of a file. -/
def ByteBuf : Type := List Nat
deriving DecidableEq, Repr

/-- One resolved entry of `MessageWithFiles.files`:
`{ name?: string; buffer: Buffer | null }`. -/
structure ResolvedFile where
  name : Option String
  buffer : Option ByteBuf
deriving DecidableEq, Repr

/-- The output shape of `getFiles` for one message (TS type
`MessageWithFiles`).  The attachment branch of the source omits `md`
from the object it builds (line 182), which the embedding mirrors by
setting it to `none` there. -/
structure MessageWithFiles where
  _id : String
  ts : Nat
  u : String
  msg : String
  md : Option String
  files : List ResolvedFile
deriving DecidableEq, Repr

/-- An `IUpload` record of the `Uploads` collection, restricted to the
fields the workflow uses. -/
structure UploadedFile where
  _id : String
  name : Option String
deriving DecidableEq, Repr

/-- `WorkDetails`: `{rid, userId}`. -/
structure WorkDetails where
  rid : String
  userId : String
deriving DecidableEq, Repr

/-- `WorkDetailsWithSource`: `WorkDetails & {from}`.  The TS field `from`
is renamed `from_` because `from` is a Lean keyword. -/
structure WorkDetailsWithSource where
  rid : String
  userId : String
  from_ : String
deriving DecidableEq, Repr

/-- One entry of the work queue, as produced by
`queueService.queueWork('work', 'omnichannel-transcript.workOnPdf', {template, details})`. -/
structure QueueItem where
  queueName : String
  handler : String
  template : String
  details : WorkDetailsWithSource
deriving DecidableEq, Repr

/-- A delivered plain chat message (`messageService.sendMessage`). -/
structure ChatMessage where
  fromId : String
  rid : String
  msg : String
deriving DecidableEq, Repr

/-- A delivered file message (`uploadService.sendFileMessage`). -/
structure FileMessage where
  roomId : String
  userId : String
  fileId : String
  msg : String
deriving DecidableEq, Repr

/-- The mutable world the service touches: the rooms collection, the
work queue, the process-wide job counter with its configured maximum
(`maxNumberOfConcurrentJobs = 25`, `currentJobNumber = 0` in the class),
and the logs of messages the messaging/upload services delivered.  The
counter is `Int`, as a JS `number` can go negative. -/
structure SysState where
  rooms : List Room
  queue : List QueueItem
  currentJobNumber : Int
  maxNumberOfConcurrentJobs : Int := 25
  sentMessages : List ChatMessage
  sentFileMessages : List FileMessage
deriving DecidableEq, Repr

namespace LivechatRooms

/-- Modelled from the spec: Document Store query "find room by id"
(`LivechatRooms.findOneById`), the first stored room with the given id. -/
def findOneById (rooms : List Room) (rid : String) : Option Room :=
  rooms.find? (fun r => r._id == rid)

/-- Modelled from the spec: Document Store update "set transcript
requested flag" (`LivechatRooms.setTranscriptRequestedPdfById`). -/
def setTranscriptRequestedPdfById (rooms : List Room) (rid : String) : List Room :=
  rooms.map (fun r => if r._id == rid then { r with pdfTranscriptRequested := true } else r)

/-- Modelled from the spec: Document Store update "unset transcript
requested flag" (`LivechatRooms.unsetTranscriptRequestedPdfById`). -/
def unsetTranscriptRequestedPdfById (rooms : List Room) (rid : String) : List Room :=
  rooms.map (fun r => if r._id == rid then { r with pdfTranscriptRequested := false } else r)

/-- Modelled from the spec: Document Store update "set transcript file id
on room" (`LivechatRooms.setPdfTranscriptFileIdById`). -/
def setPdfTranscriptFileIdById (rooms : List Room) (rid : String) (fileId : String) : List Room :=
  rooms.map (fun r => if r._id == rid then { r with pdfTranscriptFileId := some fileId } else r)

end LivechatRooms

namespace Uploads

/-- Modelled from the spec: Document Store query "find uploaded file by
id" (`Uploads.findOneById`). -/
def findOneById (uploads : List UploadedFile) (fid : String) : Option UploadedFile :=
  uploads.find? (fun u => u._id == fid)

end Uploads

/-- The external collaborators of the workflow, fixed for a run.  Store
collections that the workflow only reads are plain lists; fallible
service calls return `Except String` (an `.error` models a rejected
promise) and `getFileBuffer` returns `Option ByteBuf`. -/
structure ExternalEnv where
  /-- The `Uploads` collection. -/
  uploads : List UploadedFile
  /-- Modelled from the spec: `uploadService.getFileBuffer({userId, file})`,
  keyed here by the upload record id; `none` when the binary buffer
  cannot be retrieved ("If the File record exists but its binary buffer
  cannot be retrieved, placeholder with null buffer"). -/
  getFileBuffer : String → Option ByteBuf
  /-- `PdfWorker.isMimeTypeValid(attachment.image_type)` oracle. -/
  isMimeTypeValid : Option String → Bool
  /-- Ids of existing users (`Users.findOneById` succeeds exactly on these). -/
  users : List String
  /-- Ids of existing livechat visitors. -/
  visitors : List String
  /-- Ids of existing agents (`Users.findOneAgentById`). -/
  agents : List String
  /-- Modelled from the spec: store query "find messages for a room
  excluding the closing message, sorted ascending by timestamp"
  (`getMessagesFromRoom`). -/
  messagesOf : String → List Msg
  /-- Outcome of `translateToServerLanguage('Transcript')` followed by
  `worker.renderToStream({template, data})` and buffering of the
  stream: the fully buffered document, or the rejection. -/
  render : List MessageWithFiles → Except String ByteBuf
  /-- Outcome of `uploadService.uploadFile` on the buffered document. -/
  uploadFile : ByteBuf → Except String UploadedFile
  /-- Outcome of `messageService.createDirectMessage({to, from: 'rocket.cat'})`:
  the `rid` of the direct room, or the rejection. -/
  createDirectMessage : String → Except String String
  /-- Outcome of `messageService.sendMessage` for the failure notification. -/
  sendMessageResult : Except String Unit
  /-- Outcome of `uploadService.sendFileMessage`, keyed by target room id. -/
  sendFileMessage : String → Except String Unit
  /-- `translationService.translate('pdf_error_message', user)`, keyed by
  user id. -/
  pdfErrorMessage : String → String
  /-- `translateToServerLanguage('pdf_success_message')`. -/
  pdfSuccessServer : String
  /-- `translationService.translate('pdf_success_message', user)`. -/
  pdfSuccessUser : String → String

/-- JavaScript `a || b` on strings: the empty string is falsy. -/
def jsOrStr (a b : String) : String :=
  if a == "" then b else a

/-- JavaScript truthiness of a `string | undefined` value. -/
def truthy : Option String → Bool
  | none => false
  | some s => s != ""

namespace OmnichannelTranscript

/-- `this.name` of the service class. -/
def serviceName : String := "omnichannel-transcript"

/-- `requestTranscript({details})`, lines 88-119 of the source: resolve
the room, reject missing/open/improper rooms, silently return when a
transcript is already pending, otherwise mark the room pending and then
enqueue one work item. -/
def requestTranscript (details : WorkDetails) (s : SysState) :
    Except String Unit × SysState :=
  match LivechatRooms.findOneById s.rooms details.rid with
  | none => (.error "room-not-found", s)
  | some room =>
    if room.isOpen then (.error "room-still-open", s)
    else if room.servedBy.isNone || room.v.isNone then (.error "improper-room-state", s)
    else if room.pdfTranscriptRequested then (.ok (), s)
    else
      (.ok (),
        { s with
          rooms := LivechatRooms.setTranscriptRequestedPdfById s.rooms details.rid
          queue := s.queue ++
            [{ queueName := "work"
               handler := serviceName ++ ".workOnPdf"
               template := "omnichannel-transcript"
               details := { rid := details.rid, userId := details.userId, from_ := serviceName } }] })

end OmnichannelTranscript

/-- Whether the pattern list is an initial segment of the second list. -/
def listStartsWith : List Char → List Char → Bool
  | [], _ => true
  | _ :: _, [] => false
  | p :: ps, c :: cs => p == c && listStartsWith ps cs

/-- The characters of the literal `/file-upload/` of the `title_link`
regular expression. -/
def fileUploadPat : List Char := "/file-upload/".toList

/-- The text before the last `/` of the list, or `none` when the list
holds no `/` — the greedy capture of `(.*)\/.*` applied at the start of
the list. -/
def beforeLastSlash (cs : List Char) : Option (List Char) :=
  match cs.reverse.dropWhile (fun c => c != '/') with
  | [] => none
  | _ :: rest => some rest.reverse

/-- The capture group of the regular expression
`\/file-upload\/(.*)\/.*` on the given characters: scan for the
leftmost position where `/file-upload/` matches and the remainder still
holds a `/` (greedy `(.*)` then backtracks to the last `/`).  Positions
where `/file-upload/` matches but no `/` follows are skipped, as the
regex engine backtracks to a later starting position. -/
def matchTitleLink : List Char → Option (List Char)
  | [] => none
  | c :: cs =>
    if listStartsWith fileUploadPat (c :: cs) then
      match beforeLastSlash ((c :: cs).drop fileUploadPat.length) with
      | some cap => some cap
      | none => matchTitleLink cs
    else matchTitleLink cs

/-- `attachment.title_link?.match(/\/file-upload\/(.*)\/.*/)?.[1]`
(line 151 of the source). -/
def extractFileId (title_link : Option String) : Option String :=
  match title_link with
  | none => none
  | some l => (matchTitleLink l.toList).map List.asString

namespace OmnichannelTranscript

/-- One iteration of `message.attachments.map(...)` inside `getFiles`
(lines 130-175): `none` models the `return` of `undefined` for non-file
attachment types (filtered out afterwards); every other outcome is a
`{name, buffer}` entry, with a `null` buffer for every per-attachment
failure. -/
def resolveAttachment (env : ExternalEnv) (msgFiles : List FileRef)
    (att : Attachment) : Option ResolvedFile :=
  if att.type != some "file" then
    -- `attachment.type !== 'file'`: ignore other types of attachments
    none
  else if !env.isMimeTypeValid att.image_type then
    -- invalid mime type: placeholder with a null buffer
    some { name := att.title, buffer := none }
  else
    -- `message.files?.map(v => ({_id: v._id, name: v.name})).find(f => f.name === attachment.title)`
    match (msgFiles.map (fun v => ({ _id := v._id, name := v.name } : FileRef))).find?
        (fun file => file.name == att.title) with
    | some file =>
      (match Uploads.findOneById env.uploads file._id with
       | none => some { name := file.name, buffer := none }
       | some uploadedFile => some { name := file.name, buffer := env.getFileBuffer uploadedFile._id })
    | none =>
      -- fall back to the file id carried by `title_link`; `if (!fileId)`
      -- also rejects an empty capture, which is falsy in JS
      match (extractFileId att.title_link).filter (fun fid => fid != "") with
      | none => some { name := att.title, buffer := none }
      | some fileId =>
        -- `file = { _id: fileId, name: attachment.title || 'upload' }`
        let file : FileRef := { _id := fileId, name := some (jsOrStr (att.title.getD "") "upload") }
        match Uploads.findOneById env.uploads file._id with
        | none => some { name := file.name, buffer := none }
        | some uploadedFile => some { name := file.name, buffer := env.getFileBuffer uploadedFile._id }

/-- One iteration of `messages.map(...)` inside `getFiles` (lines
123-183).  A message without attachments passes through with an empty
`files` list; otherwise the attachments are resolved, `undefined`
entries are dropped (`files.filter(Boolean)`), and the message text is
`message.msg || message.attachments.find(a => a.description)?.description || ''`
— the trailing `|| ''` is absorbed by `Option.getD ""`. -/
def resolveMessage (env : ExternalEnv) (m : Msg) : MessageWithFiles :=
  if m.attachments.isEmpty then
    { _id := m._id, ts := m.ts, u := m.u, msg := m.msg, md := m.md, files := [] }
  else
    let files := (m.attachments.map (resolveAttachment env m.files)).filterMap id
    let msg := jsOrStr m.msg
      (((m.attachments.find? (fun a => truthy a.description)).bind
        (fun a => a.description)).getD "")
    { _id := m._id, ts := m.ts, u := m.u, msg := msg, md := none, files := files }

/-- `getFiles(userId, messages)` (lines 121-185): `Promise.all` over the
per-message resolutions, which preserves the input order.  The `userId`
argument is only forwarded to `getFileBuffer`, which the oracle keys by
file id, so it does not appear on the right-hand side. -/
def getFiles (env : ExternalEnv) (userId : String) (messages : List Msg) :
    List MessageWithFiles :=
  let _ := userId
  messages.map (resolveMessage env)

/-- `pdfFailed({details, e})` (lines 289-310): silently skip when the
room or the requesting user is gone; otherwise unset the pending flag,
open the direct conversation and send the localized error message with
the raw error text appended.  A rejection of the messaging service
propagates to the caller, the flag staying unset. -/
def pdfFailed (env : ExternalEnv) (details : WorkDetailsWithSource) (e : String)
    (s : SysState) : Except String Unit × SysState :=
  match LivechatRooms.findOneById s.rooms details.rid with
  | none => (.ok (), s)
  | some _ =>
    if env.users.contains details.userId then
      let s1 := { s with rooms := LivechatRooms.unsetTranscriptRequestedPdfById s.rooms details.rid }
      match env.createDirectMessage details.userId with
      | .error e2 => (.error e2, s1)
      | .ok drid =>
        match env.sendMessageResult with
        | .error e3 => (.error e3, s1)
        | .ok _ =>
          (.ok (), { s1 with sentMessages := s1.sentMessages ++
            [{ fromId := "rocket.cat", rid := drid
               msg := env.pdfErrorMessage details.userId ++ ": " ++ e }] })
    else (.ok (), s)

/-- `pdfComplete({details, file})` (lines 312-356): skip when the user is
gone; otherwise `Promise.all` starts both the file-id update and the
direct-conversation creation, so the update lands even when the creation
rejects; then both file deliveries are attempted (`Promise.allSettled`),
and any rejection anywhere in the `try` block is caught and only logged,
so the function is total. -/
def pdfComplete (env : ExternalEnv) (details : WorkDetailsWithSource)
    (file : UploadedFile) (s : SysState) : SysState :=
  if env.users.contains details.userId then
    let s1 := { s with rooms := LivechatRooms.setPdfTranscriptFileIdById s.rooms details.rid file._id }
    match env.createDirectMessage details.userId with
    | .error _ => s1
    | .ok drid =>
      let s2 := match env.sendFileMessage details.rid with
        | .ok _ => { s1 with sentFileMessages := s1.sentFileMessages ++
            [{ roomId := details.rid, userId := "rocket.cat", fileId := file._id
               msg := env.pdfSuccessServer }] }
        | .error _ => s1
      match env.sendFileMessage drid with
      | .ok _ => { s2 with sentFileMessages := s2.sentFileMessages ++
          [{ roomId := drid, userId := "rocket.cat", fileId := file._id
             msg := env.pdfSuccessUser details.userId }] }
      | .error _ => s2
  else s

/-- `doRender({template, data, details})` (lines 256-287): a rejection of
the translation/render step propagates to `workOnPdf`; once the stream
handlers are registered the upload and the completion/failure follow-ups
run as a detached `.then/.catch` chain whose own rejection is an
unhandled promise rejection, never surfaced to `workOnPdf` — hence the
`.ok` results with the `pdfFailed` result discarded. -/
def doRender (env : ExternalEnv) (details : WorkDetailsWithSource)
    (messages : List MessageWithFiles) (s : SysState) : Except String Unit × SysState :=
  match env.render messages with
  | .error e => (.error e, s)
  | .ok outBuff =>
    match env.uploadFile outBuff with
    | .ok file => (.ok (), pdfComplete env details file s)
    | .error e =>
      let r := pdfFailed env details e s
      (.ok (), r.2)

/-- The `try` block of `workOnPdf` (lines 216-248): resolve the room
(throwing `room-not-found` when absent), gather the room's messages,
visitor and agent, resolve the attachments with `getFiles`, and render. -/
def workOnPdfBody (env : ExternalEnv) (details : WorkDetailsWithSource)
    (s : SysState) : Except String Unit × SysState :=
  match LivechatRooms.findOneById s.rooms details.rid with
  | none => (.error "room-not-found", s)
  | some room =>
    let messages := env.messagesOf room._id
    let _visitor := room.v.bind (fun vid => if env.visitors.contains vid then some vid else none)
    let _agent := room.servedBy.bind (fun aid => if env.agents.contains aid then some aid else none)
    let messagesFiles := getFiles env details.userId messages
    doRender env details messagesFiles s

/-- `workOnPdf({template, details})` (lines 208-254): admission check
throwing `retry`, counter increment, the `try` body, a `catch` routing
any body error to `pdfFailed` (whose own rejection propagates), and a
`finally` decrementing the counter on every path. -/
def workOnPdf (env : ExternalEnv) (details : WorkDetailsWithSource)
    (s : SysState) : Except String Unit × SysState :=
  if s.maxNumberOfConcurrentJobs ≤ s.currentJobNumber then
    (.error "retry", s)
  else
    let s1 := { s with currentJobNumber := s.currentJobNumber + 1 }
    let body := workOnPdfBody env details s1
    let caught : Except String Unit × SysState :=
      match body.1 with
      | .ok _ => (.ok (), body.2)
      | .error e => pdfFailed env details e body.2
    (caught.1, { caught.2 with currentJobNumber := caught.2.currentJobNumber - 1 })

end OmnichannelTranscript

open OmnichannelTranscript

/-- Claim C1: `requestTranscript` fails with `room-not-found` when the
room does not exist, with `room-still-open` when the room is still open,
and with `improper-room-state` when the room has no serving agent or no
visitor; in each failure case the state (rooms and queue included) is
returned unchanged. -/
theorem requestTranscript_failure_cases (details : WorkDetails) (s : SysState) :
    (LivechatRooms.findOneById s.rooms details.rid = none →
      requestTranscript details s = (.error "room-not-found", s)) ∧
    (∀ room, LivechatRooms.findOneById s.rooms details.rid = some room →
      room.isOpen = true →
      requestTranscript details s = (.error "room-still-open", s)) ∧
    (∀ room, LivechatRooms.findOneById s.rooms details.rid = some room →
      room.isOpen = false → (room.servedBy = none ∨ room.v = none) →
      requestTranscript details s = (.error "improper-room-state", s)) := by
  refine ⟨fun h => ?_, fun room h hopen => ?_, fun room h hopen hmiss => ?_⟩
  · simp [requestTranscript, h]
  · simp [requestTranscript, h, hopen]
  · rcases hmiss with hs | hv
    · simp [requestTranscript, h, hopen, hs]
    · simp [requestTranscript, h, hopen, hv, Option.isNone_iff_eq_none]

/-- Witness rooms and states for the C1 theorem. -/
def roomClosedOk : Room :=
  { _id := "r1", isOpen := false, servedBy := some "agent1", v := some "vis1"
    pdfTranscriptRequested := false, pdfTranscriptFileId := none, closedAt := some 100 }

/-- A state with no rooms at all. -/
def stateEmpty : SysState :=
  { rooms := [], queue := [], currentJobNumber := 0, sentMessages := [], sentFileMessages := [] }

/-- A state holding one open room. -/
def stateOpenRoom : SysState :=
  { stateEmpty with rooms := [{ roomClosedOk with isOpen := true }] }

/-- A state holding one closed room without a serving agent. -/
def stateNoAgent : SysState :=
  { stateEmpty with rooms := [{ roomClosedOk with servedBy := none }] }

/-- Request details used by the witnesses. -/
def detailsW : WorkDetails := { rid := "r1", userId := "u1" }

/-- Witness for C1: the three failure cases, each at a concrete state. -/
theorem requestTranscript_failure_cases_witness :
    requestTranscript detailsW stateEmpty = (.error "room-not-found", stateEmpty) ∧
    requestTranscript detailsW stateOpenRoom = (.error "room-still-open", stateOpenRoom) ∧
    requestTranscript detailsW stateNoAgent = (.error "improper-room-state", stateNoAgent) :=
  ⟨(requestTranscript_failure_cases detailsW stateEmpty).1 (by decide),
   (requestTranscript_failure_cases detailsW stateOpenRoom).2.1
     { roomClosedOk with isOpen := true } (by decide) (by decide),
   (requestTranscript_failure_cases detailsW stateNoAgent).2.2
     { roomClosedOk with servedBy := none } (by decide) (by decide) (Or.inl (by decide))⟩

/-- Claim C2: on a room already flagged pending, `requestTranscript`
returns without error and leaves the state untouched (no second mark, no
queue entry), and a repeated call gives the same result, so calls on a
pending room are idempotent. -/
theorem requestTranscript_pending_idempotent (details : WorkDetails) (s : SysState)
    (room : Room) (hfind : LivechatRooms.findOneById s.rooms details.rid = some room)
    (hopen : room.isOpen = false) (hserved : room.servedBy.isSome)
    (hv : room.v.isSome) (hpending : room.pdfTranscriptRequested = true) :
    requestTranscript details s = (.ok (), s) ∧
    requestTranscript details ((requestTranscript details s).2) = (.ok (), s) := by
  have h1 : requestTranscript details s = (.ok (), s) := by
    simp [requestTranscript, hfind, hopen, hpending,
      Option.isNone_iff_eq_none, Option.ne_none_iff_isSome.mpr hserved,
      Option.ne_none_iff_isSome.mpr hv]
  exact ⟨h1, by rw [h1]; exact h1⟩

/-- A state holding one closed, served room already flagged pending. -/
def statePending : SysState :=
  { stateEmpty with rooms := [{ roomClosedOk with pdfTranscriptRequested := true }] }

/-- Witness for C2 at a concrete pending room. -/
theorem requestTranscript_pending_idempotent_witness :
    requestTranscript detailsW statePending = (.ok (), statePending) ∧
    requestTranscript detailsW ((requestTranscript detailsW statePending).2) =
      (.ok (), statePending) :=
  requestTranscript_pending_idempotent detailsW statePending
    { roomClosedOk with pdfTranscriptRequested := true }
    (by decide) (by decide) (by decide) (by decide) (by decide)

theorem pdfFailed_counter (env : ExternalEnv) (details : WorkDetailsWithSource)
    (e : String) (s : SysState) :
    ((pdfFailed env details e s).2).currentJobNumber = s.currentJobNumber := by
  unfold pdfFailed
  repeat' split
  all_goals rfl

theorem pdfComplete_counter (env : ExternalEnv) (details : WorkDetailsWithSource)
    (file : UploadedFile) (s : SysState) :
    (pdfComplete env details file s).currentJobNumber = s.currentJobNumber := by
  unfold pdfComplete
  repeat' split
  all_goals rfl

theorem doRender_counter (env : ExternalEnv) (details : WorkDetailsWithSource)
    (messages : List MessageWithFiles) (s : SysState) :
    ((doRender env details messages s).2).currentJobNumber = s.currentJobNumber := by
  unfold doRender
  repeat' split
  · rfl
  · simp [pdfComplete_counter]
  · simp [pdfFailed_counter]

theorem workOnPdfBody_counter (env : ExternalEnv) (details : WorkDetailsWithSource)
    (s : SysState) :
    ((workOnPdfBody env details s).2).currentJobNumber = s.currentJobNumber := by
  unfold workOnPdfBody
  split
  · rfl
  · simp [doRender_counter]

theorem workOnPdf_counter_eq (env : ExternalEnv) (details : WorkDetailsWithSource)
    (s : SysState) (h : s.currentJobNumber < s.maxNumberOfConcurrentJobs) :
    ((workOnPdf env details s).2).currentJobNumber = s.currentJobNumber := by
  unfold workOnPdf
  rw [if_neg (not_le.mpr h)]
  cases hb : (workOnPdfBody env details
      { s with currentJobNumber := s.currentJobNumber + 1 }).1 with
  | ok _ =>
    have := workOnPdfBody_counter env details
      { s with currentJobNumber := s.currentJobNumber + 1 }
    simp only [hb]
    simp [this]
  | error e =>
    have h1 := workOnPdfBody_counter env details
      { s with currentJobNumber := s.currentJobNumber + 1 }
    have h2 := pdfFailed_counter env details e
      ((workOnPdfBody env details { s with currentJobNumber := s.currentJobNumber + 1 }).2)
    simp only [hb]
    simp [h1, h2]

/-- Claim C3: when the in-flight job counter is at least the configured
maximum on entry, `workOnPdf` fails with the `retry` signal and returns
the state completely unchanged, so the counter keeps its pre-call value. -/
theorem workOnPdf_admission_retry (env : ExternalEnv) (details : WorkDetailsWithSource)
    (s : SysState) (h : s.maxNumberOfConcurrentJobs ≤ s.currentJobNumber) :
    workOnPdf env details s = (.error "retry", s) := by
  unfold workOnPdf
  rw [if_pos h]

/-- An oracle record with empty collections, a failing renderer and
succeeding messaging, used by the concrete witnesses. -/
def envBase : ExternalEnv :=
  { uploads := []
    getFileBuffer := fun _ => none
    isMimeTypeValid := fun _ => false
    users := []
    visitors := []
    agents := []
    messagesOf := fun _ => []
    render := fun _ => .error "render-failed"
    uploadFile := fun _ => .error "upload-failed"
    createDirectMessage := fun _ => .ok "dm1"
    sendMessageResult := .ok ()
    sendFileMessage := fun _ => .ok ()
    pdfErrorMessage := fun _ => "pdf_error_message"
    pdfSuccessServer := "pdf_success_message"
    pdfSuccessUser := fun _ => "pdf_success_message" }

/-- Queue-delivered work details used by the worker witnesses. -/
def detailsSrc : WorkDetailsWithSource :=
  { rid := "r1", userId := "u1", from_ := serviceName }

/-- A state whose job counter sits exactly at the maximum. -/
def stateFull : SysState :=
  { stateEmpty with currentJobNumber := 25 }

/-- Witness for C3 at a saturated counter. -/
theorem workOnPdf_admission_retry_witness :
    stateFull.maxNumberOfConcurrentJobs ≤ stateFull.currentJobNumber ∧
    workOnPdf envBase detailsSrc stateFull = (.error "retry", stateFull) :=
  ⟨by decide, workOnPdf_admission_retry envBase detailsSrc stateFull (by decide)⟩

/-- Claim C4: every admitted `workOnPdf` invocation leaves the job
counter at its pre-call value (the increment on entry is matched by the
`finally` decrement on every path), and a non-negative counter stays
non-negative. -/
theorem workOnPdf_counter_balanced (env : ExternalEnv) (details : WorkDetailsWithSource)
    (s : SysState) (h : s.currentJobNumber < s.maxNumberOfConcurrentJobs) :
    ((workOnPdf env details s).2).currentJobNumber = s.currentJobNumber ∧
    (0 ≤ s.currentJobNumber → 0 ≤ ((workOnPdf env details s).2).currentJobNumber) := by
  have heq := workOnPdf_counter_eq env details s h
  exact ⟨heq, fun h0 => heq ▸ h0⟩

/-- Witness for C4: an admitted invocation on the empty state (the body
fails with `room-not-found`, is routed to `pdfFailed`, and the counter
still returns to 0). -/
theorem workOnPdf_counter_balanced_witness :
    stateEmpty.currentJobNumber < stateEmpty.maxNumberOfConcurrentJobs ∧
    ((workOnPdf envBase detailsSrc stateEmpty).2).currentJobNumber =
      stateEmpty.currentJobNumber ∧
    0 ≤ ((workOnPdf envBase detailsSrc stateEmpty).2).currentJobNumber :=
  ⟨by decide,
   (workOnPdf_counter_balanced envBase detailsSrc stateEmpty (by decide)).1,
   (workOnPdf_counter_balanced envBase detailsSrc stateEmpty (by decide)).2 (by decide)⟩

theorem pdfFailed_error_sources (env : ExternalEnv) (details : WorkDetailsWithSource)
    (efail : String) (s : SysState) (e : String)
    (h : (pdfFailed env details efail s).1 = .error e) :
    env.createDirectMessage details.userId = .error e ∨
      env.sendMessageResult = .error e := by
  unfold pdfFailed at h
  split at h
  · exact absurd h (by simp)
  · split at h
    · split at h
      · rename_i heq
        simp only at h
        cases h
        exact Or.inl heq
      · split at h
        · rename_i heq
          simp only at h
          cases h
          exact Or.inr heq
        · exact absurd h (by simp)
    · exact absurd h (by simp)

theorem workOnPdfBody_error_sources (env : ExternalEnv) (details : WorkDetailsWithSource)
    (s : SysState) (e : String)
    (h : (workOnPdfBody env details s).1 = .error e) :
    e = "room-not-found" ∨ ∃ msgs, env.render msgs = .error e := by
  unfold workOnPdfBody doRender at h
  split at h
  · simp only at h
    cases h
    exact Or.inl rfl
  · dsimp only at h
    split at h
    · rename_i heq
      simp only at h
      cases h
      exact Or.inr ⟨_, heq⟩
    · split at h
      · exact absurd h (by simp)
      · exact absurd h (by simp)

theorem workOnPdf_error_sources (env : ExternalEnv) (details : WorkDetailsWithSource)
    (s : SysState) (e : String)
    (h : (workOnPdf env details s).1 = .error e) :
    e = "retry" ∨ env.createDirectMessage details.userId = .error e ∨
      env.sendMessageResult = .error e := by
  unfold workOnPdf at h
  split at h
  · simp only at h
    cases h
    exact Or.inl rfl
  · dsimp only at h
    cases hb : (workOnPdfBody env details
        { s with currentJobNumber := s.currentJobNumber + 1 }).1 with
    | ok u =>
      rw [hb] at h
      exact absurd h (by simp)
    | error eb =>
      rw [hb] at h
      simp only at h
      exact Or.inr (pdfFailed_error_sources env details eb _ e h)

/-- An oracle record where the requester exists, rendering fails, and
the error-notification send is rejected by the messaging service. -/
def envC10 : ExternalEnv :=
  { envBase with users := ["u1"], sendMessageResult := .error "user-gone" }

/-- Counterexample to claim C10: with a failing renderer and a messaging
service that rejects the error notification, an admitted `workOnPdf` run
re-raises the notification failure to its caller — the raised error is
`user-gone`, not the `retry` admission signal, because the `catch` block
awaits `pdfFailed` without guarding it. -/
theorem workOnPdf_nonretry_counterexample :
    (workOnPdf envC10 detailsSrc statePending).1 = .error "user-gone" ∧
    Except.error (ε := String) (α := Unit) "user-gone" ≠ .error "retry" := by
  constructor
  · rfl
  · intro hcontra
    simp at hcontra

/-- Claim C10 (amended): after the admission check, every terminal error
of the body (render, upload or store failure) is caught at the top of
`workOnPdf` and routed to the failure-notification path, and a failure
of the success notification is swallowed; however, a failure of the
failure notification itself (direct-conversation creation or the error
message send) propagates to the caller, so every error `workOnPdf`
raises is either the `retry` admission signal or such a notification
failure. -/
theorem workOnPdf_errors_amended (env : ExternalEnv) (details : WorkDetailsWithSource)
    (s : SysState) (e : String)
    (h : (workOnPdf env details s).1 = .error e) :
    e = "retry" ∨ env.createDirectMessage details.userId = .error e ∨
      env.sendMessageResult = .error e :=
  workOnPdf_error_sources env details s e h

/-- Witness for the amended C10 at the saturated state, whose raised
error is the `retry` signal. -/
theorem workOnPdf_errors_amended_witness :
    "retry" = "retry" ∨ envBase.createDirectMessage detailsSrc.userId = .error "retry" ∨
      envBase.sendMessageResult = .error "retry" :=
  workOnPdf_errors_amended envBase detailsSrc stateFull "retry" rfl

/-- Claim C5: for a `file`-type attachment, resolution always yields an
entry (the job is never aborted by a per-attachment failure): an invalid
mime type gives a placeholder with a null buffer, a backing file that
can be located neither by title nor by `title_link` gives a placeholder
with a null buffer, a non-null buffer only ever arises from a located
upload record whose binary could actually be retrieved, and the worker
body can only fail on a missing room or a render rejection — never
during attachment resolution. -/
theorem attachment_failures_nonfatal (env : ExternalEnv) (msgFiles : List FileRef)
    (att : Attachment) (details : WorkDetailsWithSource) (s : SysState) (e : String)
    (htype : att.type = some "file") :
    (∃ entry, resolveAttachment env msgFiles att = some entry) ∧
    (env.isMimeTypeValid att.image_type = false →
      resolveAttachment env msgFiles att = some { name := att.title, buffer := none }) ∧
    ((msgFiles.map (fun v => ({ _id := v._id, name := v.name } : FileRef))).find?
        (fun file => file.name == att.title) = none →
      (extractFileId att.title_link).filter (fun fid => fid != "") = none →
      resolveAttachment env msgFiles att = some { name := att.title, buffer := none }) ∧
    (∀ entry buf, resolveAttachment env msgFiles att = some entry →
      entry.buffer = some buf →
      ∃ fid upl, Uploads.findOneById env.uploads fid = some upl ∧
        env.getFileBuffer upl._id = some buf) ∧
    ((workOnPdfBody env details s).1 = .error e →
      e = "room-not-found" ∨ ∃ msgs, env.render msgs = .error e) := by
  have htype' : (att.type != some "file") = false := by simp [htype]
  refine ⟨?_, ?_, ?_, ?_, workOnPdfBody_error_sources env details s e⟩
  · unfold resolveAttachment
    rw [htype']
    simp only [Bool.false_eq_true, if_false]
    split
    · exact ⟨_, rfl⟩
    · split
      · split
        · exact ⟨_, rfl⟩
        · exact ⟨_, rfl⟩
      · split
        · exact ⟨_, rfl⟩
        · split
          · exact ⟨_, rfl⟩
          · exact ⟨_, rfl⟩
  · intro hmime
    unfold resolveAttachment
    rw [htype']
    simp [hmime]
  · intro hfind hlink
    unfold resolveAttachment
    rw [htype']
    simp only [Bool.false_eq_true, if_false]
    split
    · rfl
    · rw [hfind, hlink]
  · intro entry buf hres hbuf
    unfold resolveAttachment at hres
    rw [htype'] at hres
    simp only [Bool.false_eq_true, if_false] at hres
    split at hres
    · cases hres
      simp at hbuf
    · split at hres
      · split at hres
        · cases hres
          simp at hbuf
        · rename_i upl hupl
          cases hres
          exact ⟨_, upl, hupl, hbuf⟩
      · split at hres
        · cases hres
          simp at hbuf
        · split at hres
          · cases hres
            simp at hbuf
          · rename_i upl hupl
            cases hres
            exact ⟨_, upl, hupl, hbuf⟩

/-- A `file`-type attachment used by the C5 witness. -/
def attW : Attachment :=
  { type := some "file", image_type := some "image/png", title := some "pic.png"
    title_link := none, description := none }

/-- Witness for C5: a concrete file attachment whose mime type the
worker oracle rejects resolves to a null-buffer placeholder, and the
worker body on a concrete empty store fails only with `room-not-found`. -/
theorem attachment_failures_nonfatal_witness :
    (∃ entry, resolveAttachment envBase [] attW = some entry) ∧
    resolveAttachment envBase [] attW = some { name := some "pic.png", buffer := none } ∧
    ("room-not-found" = "room-not-found" ∨
      ∃ msgs, envBase.render msgs = .error "room-not-found") :=
  ⟨(attachment_failures_nonfatal envBase [] attW detailsSrc stateEmpty
      "room-not-found" rfl).1,
   (attachment_failures_nonfatal envBase [] attW detailsSrc stateEmpty
      "room-not-found" rfl).2.1 rfl,
   (attachment_failures_nonfatal envBase [] attW detailsSrc stateEmpty
      "room-not-found" rfl).2.2.2.2 rfl⟩

/-- A default message; only used to index into the message list inside
the scheduler model, at indices that the permutation hypothesis keeps in
range. -/
def defaultMsg : Msg :=
  { _id := "", ts := 0, u := "", msg := "", md := none, attachments := [], files := [] }

/-- The slot read-out of `Promise.all` over `n` tasks: the completions
are an association list from task index to task result (in completion
order), and the combined promise resolves with the per-slot results read
in slot order. -/
def promiseAllAssemble (n : Nat) (slots : List (Nat × MessageWithFiles)) :
    List (Option MessageWithFiles) :=
  (List.range n).map (fun i => (slots.find? (fun p => p.1 == i)).map (fun p => p.2))

/-- `getFiles` under an explicit completion schedule: task `i` resolves
message `i`, the tasks complete in the order listed by `sched`, and
`Promise.all` assembles the slots. -/
def getFilesScheduled (env : ExternalEnv) (userId : String) (messages : List Msg)
    (sched : List Nat) : List (Option MessageWithFiles) :=
  let _ := userId
  promiseAllAssemble messages.length
    (sched.map (fun i => (i, resolveMessage env (messages.getD i defaultMsg))))

theorem find_slot (f : Nat → MessageWithFiles) (sched : List Nat) (hnd : sched.Nodup)
    (i : Nat) (hmem : i ∈ sched) :
    (sched.map (fun j => (j, f j))).find? (fun p => p.1 == i) = some (i, f i) := by
  induction sched with
  | nil => cases hmem
  | cons j t ih =>
    rcases List.mem_cons.mp hmem with rfl | hmem'
    · simp [List.find?]
    · have hji : (j == i) = false := by
        have hne : j ≠ i := fun hji => (List.nodup_cons.mp hnd).1 (hji ▸ hmem')
        simp [hne]
      simp only [List.map_cons, List.find?, hji]
      exact ih (List.nodup_cons.mp hnd).2 hmem'

/-- Claim C6: attachment resolution is order-preserving — for a message
list sorted ascending by timestamp, assembling the per-message
resolution tasks under ANY completion order (any permutation of the task
indices) yields exactly the list `getFiles` returns: the resolved
messages in the original message order. -/
theorem getFiles_order_preserving (env : ExternalEnv) (userId : String)
    (messages : List Msg) (sched : List Nat)
    (_hsorted : messages.Pairwise (fun a b => a.ts ≤ b.ts))
    (hperm : sched.Perm (List.range messages.length)) :
    getFilesScheduled env userId messages sched =
      (getFiles env userId messages).map some := by
  have hnd : sched.Nodup := hperm.nodup_iff.mpr (List.nodup_range _)
  unfold getFilesScheduled promiseAllAssemble getFiles
  apply List.ext_getElem
  · simp
  · intro i h1 h2
    have hilt : i < messages.length := by simpa using h1
    have hmem : i ∈ sched := hperm.mem_iff.mpr (List.mem_range.mpr hilt)
    simp only [List.getElem_map, List.getElem_range]
    rw [find_slot (fun j => resolveMessage env (messages.getD j defaultMsg)) sched hnd i hmem]
    simp [List.getD_eq_getElem?_getD, List.getElem?_eq_getElem hilt]

/-- First message of the C6 witness pair (one valid attachment). -/
def msgW1 : Msg :=
  { _id := "m1", ts := 1, u := "u1", msg := "hello", md := none
    attachments := [attW], files := [] }

/-- Second message of the C6 witness pair. -/
def msgW2 : Msg :=
  { _id := "m2", ts := 2, u := "u1", msg := "world", md := none
    attachments := [attW], files := [] }

/-- Witness for C6: two timestamp-sorted messages whose tasks complete
in reverse order still assemble to `getFiles` of the original order. -/
theorem getFiles_order_preserving_witness :
    ([1, 0] : List Nat).Perm (List.range ([msgW1, msgW2] : List Msg).length) ∧
    getFilesScheduled envBase "u1" [msgW1, msgW2] [1, 0] =
      (getFiles envBase "u1" [msgW1, msgW2]).map some :=
  ⟨by decide,
   getFiles_order_preserving envBase "u1" [msgW1, msgW2] [1, 0]
     (by decide) (by decide)⟩

/-- The message-text rule exactly as claim C7 words it: the original
body when non-empty, otherwise the description of the first attachment
that has one, otherwise the empty string. -/
def claimedMsgText (m : Msg) : String :=
  if m.msg != "" then m.msg
  else
    match m.attachments.find? (fun a => a.description.isSome) with
    | some a => a.description.getD ""
    | none => ""

/-- A message with an empty body whose first attachment carries an
empty-string description and whose second carries a real one. -/
def msgDescCex : Msg :=
  { _id := "m1", ts := 1, u := "u1", msg := "", md := none
    attachments :=
      [{ type := none, image_type := none, title := none, title_link := none
         description := some "" },
       { type := none, image_type := none, title := none, title_link := none
         description := some "described" }]
    files := [] }

/-- Counterexample to claim C7: the source skips attachments whose
description is the (falsy) empty string, so the resolved text is the
second attachment's description, while the first attachment is the
first one that HAS a description and the claim therefore predicts the
empty string. -/
theorem msgText_claim_counterexample :
    (resolveMessage envBase msgDescCex).msg = "described" ∧
    claimedMsgText msgDescCex = "" ∧
    (resolveMessage envBase msgDescCex).msg ≠ claimedMsgText msgDescCex := by
  refine ⟨rfl, rfl, by decide⟩

/-- Claim C7 (amended): the resolved message text is the original body
when non-empty, otherwise the description of the first attachment whose
description is a non-empty string, otherwise the empty string — also for
messages without attachments, whose body passes through. -/
theorem msgText_fallback_amended (env : ExternalEnv) (m : Msg) :
    (resolveMessage env m).msg =
      if m.msg == "" then
        ((m.attachments.find? (fun a => truthy a.description)).bind
          (fun a => a.description)).getD ""
      else m.msg := by
  unfold resolveMessage
  by_cases hatt : m.attachments.isEmpty
  · have hnil : m.attachments = [] := by simpa [List.isEmpty_iff] using hatt
    rw [if_pos hatt]
    by_cases hm : m.msg = ""
    · simp [hnil, hm]
    · simp [hnil, hm]
  · rw [if_neg hatt]
    by_cases hm : m.msg = ""
    · simp [jsOrStr, hm]
    · simp [jsOrStr, hm]

theorem findOneById_update (rooms : List Room) (rid : String) (g : Room → Room)
    (hid : ∀ r, (g r)._id = r._id) :
    (rooms.map (fun r => if r._id == rid then g r else r)).find? (fun r => r._id == rid)
      = (rooms.find? (fun r => r._id == rid)).map g := by
  induction rooms with
  | nil => rfl
  | cons r rest ih =>
    simp only [List.map_cons]
    by_cases hr : (r._id == rid) = true
    · rw [if_pos hr]
      rw [@List.find?_cons_of_pos Room (fun x => x._id == rid) (g r) _
            (by show ((g r)._id == rid) = true; rw [hid]; exact hr),
          @List.find?_cons_of_pos Room (fun x => x._id == rid) r rest hr]
      simp
    · rw [if_neg hr]
      rw [@List.find?_cons_of_neg Room (fun x => x._id == rid) r _ hr,
          @List.find?_cons_of_neg Room (fun x => x._id == rid) r rest hr]
      exact ih

theorem find_after_unset (rooms : List Room) (rid : String) :
    LivechatRooms.findOneById (LivechatRooms.unsetTranscriptRequestedPdfById rooms rid) rid
      = (LivechatRooms.findOneById rooms rid).map
          (fun r => { r with pdfTranscriptRequested := false }) :=
  findOneById_update rooms rid _ (fun _ => rfl)

theorem find_after_setFileId (rooms : List Room) (rid : String) (fileId : String) :
    LivechatRooms.findOneById (LivechatRooms.setPdfTranscriptFileIdById rooms rid fileId) rid
      = (LivechatRooms.findOneById rooms rid).map
          (fun r => { r with pdfTranscriptFileId := some fileId }) :=
  findOneById_update rooms rid _ (fun _ => rfl)

theorem pdfFailed_happy (env : ExternalEnv) (details : WorkDetailsWithSource)
    (e : String) (s : SysState) (room : Room) (drid : String)
    (hfind : LivechatRooms.findOneById s.rooms details.rid = some room)
    (huser : env.users.contains details.userId = true)
    (hdm : env.createDirectMessage details.userId = .ok drid)
    (hsend : env.sendMessageResult = .ok ()) :
    pdfFailed env details e s =
      (.ok (),
        { s with
          rooms := LivechatRooms.unsetTranscriptRequestedPdfById s.rooms details.rid
          sentMessages := s.sentMessages ++
            [{ fromId := "rocket.cat", rid := drid
               msg := env.pdfErrorMessage details.userId ++ ": " ++ e }] }) := by
  have hmem : details.userId ∈ env.users := List.elem_iff.mp huser
  simp [pdfFailed, hfind, huser, hmem, hdm, hsend]

theorem pdfFailed_skip_room (env : ExternalEnv) (details : WorkDetailsWithSource)
    (e : String) (s : SysState)
    (hfind : LivechatRooms.findOneById s.rooms details.rid = none) :
    pdfFailed env details e s = (.ok (), s) := by
  simp [pdfFailed, hfind]

theorem pdfFailed_skip_user (env : ExternalEnv) (details : WorkDetailsWithSource)
    (e : String) (s : SysState)
    (huser : env.users.contains details.userId = false) :
    pdfFailed env details e s = (.ok (), s) := by
  unfold pdfFailed
  split
  · rfl
  · rw [huser]
    simp

theorem pdfComplete_rooms (env : ExternalEnv) (details : WorkDetailsWithSource)
    (file : UploadedFile) (s : SysState) :
    (pdfComplete env details file s).rooms =
      if env.users.contains details.userId then
        LivechatRooms.setPdfTranscriptFileIdById s.rooms details.rid file._id
      else s.rooms := by
  unfold pdfComplete
  by_cases huser : env.users.contains details.userId = true
  · rw [if_pos huser, if_pos huser]
    repeat' split
    all_goals rfl
  · rw [if_neg (by simpa using huser), if_neg (by simpa using huser)]

/-- Claim C8: when a terminally failed job still finds the room and the
requesting user and the messaging service accepts the notification,
`pdfFailed` clears the room's pending-transcript flag, opens the direct
conversation and delivers exactly one localized error message with the
raw error text appended (so any room later found is no longer pending);
when the room or the requesting user no longer exists the whole step is
skipped silently with the state untouched; and an admitted `workOnPdf`
invocation always returns the job counter to its pre-call value. -/
theorem pdfFailed_notification (env : ExternalEnv) (details : WorkDetailsWithSource)
    (e : String) (s : SysState) (room : Room) (drid : String) :
    (LivechatRooms.findOneById s.rooms details.rid = some room →
      env.users.contains details.userId = true →
      env.createDirectMessage details.userId = .ok drid →
      env.sendMessageResult = .ok () →
      pdfFailed env details e s =
        (.ok (),
          { s with
            rooms := LivechatRooms.unsetTranscriptRequestedPdfById s.rooms details.rid
            sentMessages := s.sentMessages ++
              [{ fromId := "rocket.cat", rid := drid
                 msg := env.pdfErrorMessage details.userId ++ ": " ++ e }] }) ∧
      (∀ r', LivechatRooms.findOneById ((pdfFailed env details e s).2).rooms details.rid =
          some r' → r'.pdfTranscriptRequested = false)) ∧
    (LivechatRooms.findOneById s.rooms details.rid = none →
      pdfFailed env details e s = (.ok (), s)) ∧
    (env.users.contains details.userId = false →
      pdfFailed env details e s = (.ok (), s)) ∧
    (s.currentJobNumber < s.maxNumberOfConcurrentJobs →
      ((workOnPdf env details s).2).currentJobNumber = s.currentJobNumber) := by
  refine ⟨fun hfind huser hdm hsend => ?_, pdfFailed_skip_room env details e s,
    pdfFailed_skip_user env details e s, workOnPdf_counter_eq env details s⟩
  have heq := pdfFailed_happy env details e s room drid hfind huser hdm hsend
  refine ⟨heq, fun r' hr' => ?_⟩
  rw [heq] at hr'
  rw [find_after_unset, hfind] at hr'
  injection hr' with hr''
  subst hr''
  rfl

/-- An oracle record whose only existing user is the requester `u1`. -/
def envC8 : ExternalEnv := { envBase with users := ["u1"] }

/-- The pending room stored in `statePending`. -/
def roomPendingW : Room := { roomClosedOk with pdfTranscriptRequested := true }

/-- Witness for C8: the happy failure path on the concrete pending room,
the skip on a missing room, and the balanced counter. -/
theorem pdfFailed_notification_witness :
    pdfFailed envC8 detailsSrc "boom" statePending =
      (.ok (),
        { statePending with
          rooms := LivechatRooms.unsetTranscriptRequestedPdfById statePending.rooms
            detailsSrc.rid
          sentMessages := statePending.sentMessages ++
            [{ fromId := "rocket.cat", rid := "dm1"
               msg := envC8.pdfErrorMessage detailsSrc.userId ++ ": " ++ "boom" }] }) ∧
    pdfFailed envC8 detailsSrc "boom" stateEmpty = (.ok (), stateEmpty) ∧
    ((workOnPdf envC8 detailsSrc stateEmpty).2).currentJobNumber =
      stateEmpty.currentJobNumber :=
  ⟨((pdfFailed_notification envC8 detailsSrc "boom" statePending roomPendingW "dm1").1
      rfl rfl rfl rfl).1,
   (pdfFailed_notification envC8 detailsSrc "boom" stateEmpty roomPendingW "dm1").2.1 rfl,
   (pdfFailed_notification envC8 detailsSrc "boom" stateEmpty roomPendingW "dm1").2.2.2
     (by decide)⟩

/-- Counterexample to claim C9: a job that fails terminally (the render
oracle rejects) while the requesting user no longer exists finishes
without clearing the room's pending flag — `pdfFailed` returns before
the unset once the user lookup fails, so the room stays flagged pending
forever. -/
theorem terminal_pending_counterexample :
    (workOnPdf envBase detailsSrc statePending).1 = .ok () ∧
    (workOnPdf envBase detailsSrc statePending).2.rooms = statePending.rooms ∧
    (LivechatRooms.findOneById statePending.rooms "r1").map
      (fun r => r.pdfTranscriptRequested) = some true ∧
    envBase.render (getFiles envBase "u1" []) = .error "render-failed" :=
  ⟨rfl, rfl, rfl, rfl⟩

theorem pdfFailed_rooms_of_user (env : ExternalEnv) (details : WorkDetailsWithSource)
    (e : String) (s : SysState) (room : Room)
    (hfind : LivechatRooms.findOneById s.rooms details.rid = some room)
    (huser : env.users.contains details.userId = true) :
    ((pdfFailed env details e s).2).rooms =
      LivechatRooms.unsetTranscriptRequestedPdfById s.rooms details.rid := by
  simp only [pdfFailed, hfind, huser]
  repeat' split
  all_goals first
  | rfl
  | exact absurd trivial (by assumption)

/-- Claim C9 (amended): provided the requesting user still exists at
terminal time, a job does not leave the room permanently pending: on
success (`pdfComplete`) the room found afterwards carries the persisted
transcript-file reference, and on failure (`pdfFailed`) the room found
afterwards has its pending flag cleared — the unset precedes the
notification, so this holds even when the direct-message creation or the
error send is rejected.  When the requester was deleted, neither update
happens and the room may stay flagged. -/
theorem terminal_pending_amended (env : ExternalEnv) (details : WorkDetailsWithSource)
    (s : SysState) (room : Room) (file : UploadedFile) (e : String)
    (hfind : LivechatRooms.findOneById s.rooms details.rid = some room)
    (huser : env.users.contains details.userId = true) :
    (∀ r', LivechatRooms.findOneById (pdfComplete env details file s).rooms details.rid =
        some r' → r'.pdfTranscriptFileId = some file._id) ∧
    (∀ r', LivechatRooms.findOneById ((pdfFailed env details e s).2).rooms details.rid =
        some r' → r'.pdfTranscriptRequested = false) := by
  constructor
  · intro r' hr'
    rw [pdfComplete_rooms, if_pos huser] at hr'
    rw [find_after_setFileId, hfind] at hr'
    injection hr' with hr''
    subst hr''
    rfl
  · intro r' hr'
    rw [pdfFailed_rooms_of_user env details e s room hfind huser] at hr'
    rw [find_after_unset, hfind] at hr'
    injection hr' with hr''
    subst hr''
    rfl

/-- The uploaded transcript record used by the C9 witness. -/
def fileW : UploadedFile := { _id := "f9", name := some "t.pdf" }

/-- Witness for the amended C9: on the concrete pending room, completion
persists the file reference `f9`, and the failure path clears the
pending flag even though this oracle rejects the error-message send. -/
theorem terminal_pending_amended_witness :
    ({ roomClosedOk with pdfTranscriptRequested := true, pdfTranscriptFileId := some "f9" } :
      Room).pdfTranscriptFileId = some "f9" ∧
    ({ roomClosedOk with pdfTranscriptRequested := false } : Room).pdfTranscriptRequested =
      false :=
  ⟨(terminal_pending_amended envC10 detailsSrc statePending roomPendingW fileW "boom"
      rfl rfl).1 _ rfl,
   (terminal_pending_amended envC10 detailsSrc statePending roomPendingW fileW "boom"
      rfl rfl).2 _ rfl⟩
